import Mathlib

/-!
Shallow embedding of the event-bus core of this repository
(`src/services/emailService.js`): the `Event` model with its JSON
serialization, the `EventStore`, the `DeadLetterQueue`, the
`CircuitBreaker` state machine, the `Saga` orchestrator and the
`EventBus` dispatch/retry pipeline (`process`, `handleProcessingError`,
`publish`, `replay`).

Modelling conventions:
* JavaScript exceptions and promise rejections are modelled with
  `Except JsError`; a thrown error is an `Except.error`.
* Impure handler functions that may behave differently on each call are
  modelled as oracles `Nat → Event → Except JsError Unit` indexed by a
  per-handler invocation counter (`calls`); the 30-second execution
  deadline of `executeHandler` is one possible outcome of the oracle
  (an error result), since a timeout is treated identically to a thrown
  failure.
* `Date.now()` and the random id generators are impure; their results
  are supplied explicitly through a `Fresh` record.
* Real-time timers (the circuit breaker's reset timer, retry backoff
  sleeps, saga timeouts) have no observable effect other than delay or
  the transition they eventually fire; the breaker's timeout elapsing is
  modelled as an explicit application of `CircuitBreaker.halfOpen`, and
  backoff sleeps are elided.
-/

/-- A JavaScript `Error` value as far as the embedded code observes it:
`message`, `name` and `stack`. -/
structure JsError where
  message : String
  name : String
  stack : String
deriving DecidableEq

/-- The `EventStatus` enumeration of the source. -/
inductive EventStatus where
  | pending
  | processing
  | completed
  | failed
  | retrying
  | dead_letter
deriving DecidableEq

/-- An event payload. The embedded code treats payloads as opaque except
that `EventStore.getEvents` reads `payload.aggregateId` (which may be
absent, i.e. `none`). -/
structure Payload where
  aggregateId : Option String
  body : String
deriving DecidableEq

/-- The `metadata` object built by the `Event` constructor. The source
additionally spreads `options.metadata` over these fields, but no call
site inside the embedded code ever passes `options.metadata`
(`Event.fromJSON` spreads the serialized metadata into the top level of
its options object), so that spread is a no-op here. -/
structure Metadata where
  timestamp : Nat
  version : Nat
  correlationId : String
  causationId : Option String
  source : String
  userId : Option String
  traceId : String
  spanId : String
deriving DecidableEq

/-- An `Event` instance. -/
structure Event where
  id : String
  type : String
  payload : Payload
  metadata : Metadata
  status : EventStatus
  attempts : Nat
  maxRetries : Nat
  retryDelay : Nat
deriving DecidableEq

/-- The options object accepted by the `Event` constructor. A `none`
field stands for a JavaScript `undefined`/`null` entry. -/
structure EventOptions where
  id : Option String := none
  version : Option Nat := none
  correlationId : Option String := none
  causationId : Option String := none
  source : Option String := none
  userId : Option String := none
  traceId : Option String := none
  maxRetries : Option Nat := none
  retryDelay : Option Nat := none

/-- Results of the impure generators used by the `Event` constructor:
`Date.now()`, `generateId()`, `generateTraceId()`, `generateSpanId()`. -/
structure Fresh where
  now : Nat
  genId : String
  genTraceId : String
  genSpanId : String

/-- JavaScript `x || d` for an optional string `x`: the default is taken
when `x` is absent or falsy (the empty string). -/
def jsOrStr (o : Option String) (d : String) : String :=
  match o with
  | none => d
  | some s => if s = "" then d else s

/-- JavaScript `x || d` for an optional number `x`: the default is taken
when `x` is absent or falsy (zero). -/
def jsOrNat (o : Option Nat) (d : Nat) : Nat :=
  match o with
  | none => d
  | some n => if n = 0 then d else n

/-- JavaScript `x || null` for an optional string `x`: a falsy value
(absent or empty) collapses to `null`. -/
def jsOrNull (o : Option String) : Option String :=
  match o with
  | none => none
  | some s => if s = "" then none else some s

/-- The `Event` constructor (`new Event(type, payload, options)`). -/
def Event.make (type : String) (payload : Payload) (opts : EventOptions)
    (fresh : Fresh) : Event :=
  let id := jsOrStr opts.id fresh.genId
  { id := id
    type := type
    payload := payload
    metadata :=
      { timestamp := fresh.now
        version := jsOrNat opts.version 1
        correlationId := jsOrStr opts.correlationId id
        causationId := jsOrNull opts.causationId
        source := jsOrStr opts.source "unknown"
        userId := jsOrNull opts.userId
        traceId := jsOrStr opts.traceId fresh.genTraceId
        spanId := fresh.genSpanId }
    status := EventStatus.pending
    attempts := 0
    maxRetries := jsOrNat opts.maxRetries 3
    retryDelay := jsOrNat opts.retryDelay 1000 }

/-- The plain object produced by `Event.toJSON()`. Note that it carries
neither `maxRetries` nor `retryDelay`. -/
structure EventJSON where
  id : String
  type : String
  payload : Payload
  metadata : Metadata
  status : EventStatus
  attempts : Nat
deriving DecidableEq

/-- `Event.toJSON()`. -/
def Event.toJSON (e : Event) : EventJSON :=
  { id := e.id
    type := e.type
    payload := e.payload
    metadata := e.metadata
    status := e.status
    attempts := e.attempts }

/-- `Event.fromJSON(json)`: rebuilds an event through the constructor
with options `{id: json.id, ...json.metadata}` and then overwrites
`status` and `attempts`. The constructor ignores `options.timestamp` and
`options.spanId` (it always calls `Date.now()` / `generateSpanId()`),
and the serialized form has no `maxRetries`/`retryDelay`, so those
fields take constructor defaults. -/
def Event.fromJSON (json : EventJSON) (fresh : Fresh) : Event :=
  let ev := Event.make json.type json.payload
    { id := some json.id
      version := some json.metadata.version
      correlationId := some json.metadata.correlationId
      causationId := json.metadata.causationId
      source := some json.metadata.source
      userId := json.metadata.userId
      traceId := some json.metadata.traceId
      maxRetries := none
      retryDelay := none } fresh
  { ev with status := json.status, attempts := json.attempts }

/-- A stored event produced by `EventStore.append`: the spread of
`event.toJSON()` plus `storedAt` and `sequence`. -/
structure StoredEvent where
  json : EventJSON
  storedAt : Nat
  sequence : Nat
deriving DecidableEq

/-- The `EventStore`. The snapshot map and the subscriber set are
omitted: no embedded claim touches snapshots, and subscriber callbacks
are invoked with every exception caught (`notifySubscribers`), so they
have no effect on any state modelled here. -/
structure EventStore where
  events : List StoredEvent

/-- `EventStore.append(event)`; `now` is the `Date.now()` result. -/
def EventStore.append (s : EventStore) (ev : Event) (now : Nat) :
    EventStore × StoredEvent :=
  let se : StoredEvent :=
    { json := ev.toJSON, storedAt := now, sequence := s.events.length }
  ({ events := s.events ++ [se] }, se)

/-- The options object of `EventStore.getEvents`. -/
structure GetEventsOptions where
  fromSequence : Option Nat := none
  toSequence : Option Nat := none
  eventTypes : Option (List String) := none

/-- `EventStore.getEvents(aggregateId, options)`: filter by
`payload.aggregateId === aggregateId` (strict equality, so an absent
payload aggregate id only matches an absent argument), then by the
optional sequence bounds, then by the optional type list. -/
def EventStore.getEvents (s : EventStore) (aggregateId : Option String)
    (opts : GetEventsOptions) : List StoredEvent :=
  let evs := s.events.filter (fun e => e.json.payload.aggregateId == aggregateId)
  let evs := match opts.fromSequence with
    | none => evs
    | some lo => evs.filter (fun e => decide (lo ≤ e.sequence))
  let evs := match opts.toSequence with
    | none => evs
    | some hi => evs.filter (fun e => decide (e.sequence ≤ hi))
  match opts.eventTypes with
  | none => evs
  | some ts => evs.filter (fun e => ts.contains e.json.type)

/-- One dead-letter entry as built by `DeadLetterQueue.add`. -/
structure DeadLetter where
  event : EventJSON
  errorMessage : String
  errorStack : String
  errorName : String
  addedAt : Nat
  retryCount : Nat
deriving DecidableEq

/-- Lookup in a JavaScript `Map` modelled as an association list. -/
def mapGet {α : Type} (m : List (String × α)) (k : String) : Option α :=
  (m.find? (fun p => p.1 == k)).map (fun p => p.2)

/-- The `DeadLetterQueue`: the entry list, the size bound, and the
handler map (event type, or `"*"`, to callback). A handler that throws
is an oracle returning `Except.error`. -/
structure DeadLetterQueue where
  queue : List DeadLetter
  maxSize : Nat
  handlers : List (String × (DeadLetter → Except JsError Unit))

/-- `DeadLetterQueue.notifyHandlers(deadLetter)`: invoke the handler
registered for the entry's event type, then the wildcard handler. The
source wraps neither call in `try`/`catch`, so a thrown error aborts the
notification (the wildcard handler is not reached if the typed one
throws) and propagates to the caller. -/
def DeadLetterQueue.notifyHandlers (q : DeadLetterQueue) (dl : DeadLetter) :
    Except JsError Unit := do
  match mapGet q.handlers dl.event.type with
  | some h => h dl
  | none => pure ()
  match mapGet q.handlers "*" with
  | some h => h dl
  | none => pure ()

/-- The dead-letter entry constructed at the top of
`DeadLetterQueue.add`. -/
def DeadLetterQueue.mkEntry (ev : Event) (err : JsError) (now : Nat) : DeadLetter :=
  { event := ev.toJSON
    errorMessage := err.message
    errorStack := err.stack
    errorName := err.name
    addedAt := now
    retryCount := ev.attempts }

/-- Result of `DeadLetterQueue.add`: the updated queue state (the
insertion and possible eviction happen before the handlers run, so they
survive a handler exception), the entry, and the returned value — the
entry on success, or the propagated handler exception. -/
structure AddResult where
  dlq : DeadLetterQueue
  entry : DeadLetter
  result : Except JsError DeadLetter

/-- `DeadLetterQueue.add(event, error)`: push the entry, shift the
oldest entry out when the size bound is exceeded, then run
`notifyHandlers` (whose exceptions propagate). -/
def DeadLetterQueue.add (q : DeadLetterQueue) (ev : Event) (err : JsError)
    (now : Nat) : AddResult :=
  let dl := DeadLetterQueue.mkEntry ev err now
  let queue := q.queue ++ [dl]
  let queue := if q.maxSize < queue.length then queue.drop 1 else queue
  let q' : DeadLetterQueue := { q with queue := queue }
  { dlq := q'
    entry := dl
    result := (q'.notifyHandlers dl).map (fun _ => dl) }

/-- The circuit breaker's state enumeration: `'closed'`, `'open'`,
`'half-open'`. -/
inductive BreakerState where
  | closed
  | opened
  | halfOpen
deriving DecidableEq

/-- The `CircuitBreaker` fields. The `resetTimer` handle is not a field
here: the timer scheduled when the breaker opens has no observable
effect until it fires, and its firing is modelled by applying
`CircuitBreaker.halfOpen`. -/
structure CircuitBreaker where
  state : BreakerState
  failureCount : Nat
  successCount : Nat
  failureThreshold : Nat
  successThreshold : Nat
  timeout : Nat
  lastFailure : Option (JsError × Nat)
deriving DecidableEq

/-- The `CircuitBreaker` constructor (`new CircuitBreaker(options)`). -/
def CircuitBreaker.make (failureThreshold successThreshold timeout : Option Nat) :
    CircuitBreaker :=
  { state := BreakerState.closed
    failureCount := 0
    successCount := 0
    failureThreshold := jsOrNat failureThreshold 5
    successThreshold := jsOrNat successThreshold 3
    timeout := jsOrNat timeout 30000
    lastFailure := none }

/-- `CircuitBreaker.close()`. Clearing the reset timer has no modelled
effect. -/
def CircuitBreaker.close (cb : CircuitBreaker) : CircuitBreaker :=
  { cb with state := BreakerState.closed, failureCount := 0, successCount := 0 }

/-- `CircuitBreaker.open()`: enter the open state and reset
`successCount`; a timer is scheduled to call `halfOpen` after
`timeout` milliseconds. (Named `openCircuit` because `open` is a Lean
keyword.) -/
def CircuitBreaker.openCircuit (cb : CircuitBreaker) : CircuitBreaker :=
  { cb with state := BreakerState.opened, successCount := 0 }

/-- `CircuitBreaker.halfOpen()`: the transition fired when the open
state's reset timer elapses. -/
def CircuitBreaker.halfOpen (cb : CircuitBreaker) : CircuitBreaker :=
  { cb with state := BreakerState.halfOpen, failureCount := 0, successCount := 0 }

/-- `CircuitBreaker.onSuccess()`. -/
def CircuitBreaker.onSuccess (cb : CircuitBreaker) : CircuitBreaker :=
  let cb := { cb with failureCount := 0 }
  if cb.state = BreakerState.halfOpen then
    let cb := { cb with successCount := cb.successCount + 1 }
    if cb.successThreshold ≤ cb.successCount then cb.close else cb
  else cb

/-- `CircuitBreaker.onFailure(error)`; `now` is the `Date.now()` result
recorded in `lastFailure`. -/
def CircuitBreaker.onFailure (cb : CircuitBreaker) (err : JsError) (now : Nat) :
    CircuitBreaker :=
  let cb := { cb with
    failureCount := cb.failureCount + 1
    lastFailure := some (err, now) }
  if cb.state = BreakerState.halfOpen then
    cb.openCircuit
  else if cb.failureThreshold ≤ cb.failureCount then
    cb.openCircuit
  else
    cb

/-- The error thrown by `execute` while the breaker is open
(`new Error('Circuit breaker is open')`). -/
def circuitOpenError : JsError :=
  { message := "Circuit breaker is open", name := "Error", stack := "" }

/-- Result of `CircuitBreaker.execute(fn)`: whether `fn` was invoked,
the value returned or the error (re)thrown, and the updated breaker. -/
structure ExecOut (α : Type) where
  invoked : Bool
  result : Except JsError α
  breaker : CircuitBreaker

/-- `CircuitBreaker.execute(fn)`. The single invocation of the impure
`fn` is modelled by its outcome `fn : Except JsError α`. If the state is
open, the call throws without invoking `fn`; otherwise `fn` runs, the
breaker is updated via `onSuccess`/`onFailure`, and the result or error
is passed through. -/
def CircuitBreaker.execute {α : Type} (cb : CircuitBreaker)
    (fn : Except JsError α) (now : Nat) : ExecOut α :=
  if cb.state = BreakerState.opened then
    { invoked := false, result := Except.error circuitOpenError, breaker := cb }
  else
    match fn with
    | Except.ok a =>
      { invoked := true, result := Except.ok a, breaker := cb.onSuccess }
    | Except.error e =>
      { invoked := true, result := Except.error e, breaker := cb.onFailure e now }

/-- Iterated failing `execute` calls: `failIter err now k cb` is the
breaker after `k` consecutive `execute` calls whose wrapped function
fails with `err` whenever it is actually invoked. -/
def failIter (err : JsError) (now : Nat) : Nat → CircuitBreaker → CircuitBreaker
  | 0, cb => cb
  | k + 1, cb =>
    failIter err now k (cb.execute (Except.error err : Except JsError Unit) now).breaker

/-- Iterated succeeding `execute` calls: `succIter now k cb` is the
breaker after `k` consecutive `execute` calls whose wrapped function
succeeds whenever it is actually invoked. -/
def succIter (now : Nat) : Nat → CircuitBreaker → CircuitBreaker
  | 0, cb => cb
  | k + 1, cb => succIter now k ((cb.execute (Except.ok ()) now)).breaker

/-- A saga context: the accumulating key-value object. JavaScript
objects are modelled as association lists with unique keys; the spread
merge keeps the original entries whose keys are not overridden and then
appends the new ones. -/
abbrev SagaCtx := List (String × Nat)

/-- The shallow merge `{...a, ...b}`: keys of `b` override keys of
`a`. -/
def mergeCtx (a b : SagaCtx) : SagaCtx :=
  a.filter (fun p => (b.find? (fun q => q.1 == p.1)).isNone) ++ b

/-- One saga step: the forward action and its optional compensation.
The impure `execute` is modelled by its observable behaviour: the
result object merged into the context, or the thrown error (the
`Promise.race` against the saga timeout means a timeout shows up as one
more possible error outcome). A compensation is identified by an opaque
label; running it is recorded in the compensation trace, and since the
source swallows every compensation exception, a compensation's own
behaviour cannot influence anything else. -/
structure SagaStep where
  execute : SagaCtx → Except JsError SagaCtx
  compensate : Option String

/-- The saga state enumeration. -/
inductive SagaState where
  | pending
  | running
  | completed
  | compensating
  | failed
deriving DecidableEq

/-- A `Saga` instance. -/
structure Saga where
  name : String
  steps : List SagaStep
  compensations : List (Option String)
  currentStep : Nat
  state : SagaState
  context : SagaCtx
  timeout : Nat

/-- The `Saga` constructor (`new Saga(name, options)`). -/
def Saga.make (name : String) (timeoutOpt : Option Nat) : Saga :=
  { name := name
    steps := []
    compensations := []
    currentStep := 0
    state := SagaState.pending
    context := []
    timeout := jsOrNat timeoutOpt 60000 }

/-- `Saga.addStep(execute, compensate)` (builder style). -/
def Saga.addStep (s : Saga) (execute : SagaCtx → Except JsError SagaCtx)
    (compensate : Option String) : Saga :=
  { s with steps := s.steps ++ [{ execute := execute, compensate := compensate }] }

/-- `Saga.compensate()`: set state to `compensating`, run every non-null
entry of the compensation stack in order (their exceptions are caught
and logged), then set state to `failed`. Returns the updated saga and
the trace of compensation labels actually invoked, in invocation
order. -/
def Saga.compensate (s : Saga) : Saga × List String :=
  let s := { s with state := SagaState.compensating }
  let trace := s.compensations.filterMap id
  ({ s with state := SagaState.failed }, trace)

/-- The step loop inside `Saga.run`: execute each remaining step in
order, recording its index in `currentStep`, merging its result into
the context and pushing (`unshift`) its compensation; stop at the first
error. -/
def Saga.runSteps (s : Saga) (idx : Nat) : List SagaStep → Saga × Option JsError
  | [] => (s, none)
  | step :: rest =>
    let s := { s with currentStep := idx }
    match step.execute s.context with
    | Except.error e => (s, some e)
    | Except.ok r =>
      let s := { s with
        context := mergeCtx s.context r
        compensations := step.compensate :: s.compensations }
      Saga.runSteps s (idx + 1) rest

/-- Result of `Saga.run`: the saga object afterwards, the returned
context or the re-thrown error, and the compensation trace (empty on
the success path). -/
structure RunOut where
  saga : Saga
  result : Except JsError SagaCtx
  compTrace : List String

/-- `Saga.run(initialContext)`: reset the context to a copy of
`initialContext`, set state `running`, execute the steps in order; on
success set state `completed` and return the context; on a step failure
run `compensate` (which ends in state `failed`) and re-throw the
original error. -/
def Saga.run (s : Saga) (initialContext : SagaCtx) : RunOut :=
  let s := { s with context := initialContext, state := SagaState.running }
  match Saga.runSteps s 0 s.steps with
  | (s', none) =>
    { saga := { s' with state := SagaState.completed }
      result := Except.ok s'.context
      compTrace := [] }
  | (s', some e) =>
    let (s'', trace) := s'.compensate
    { saga := s'', result := Except.error e, compTrace := trace }

/-- One handler registration as stored by `EventBus.subscribe` plus its
runtime invocation counter. `behavior k ev` is the outcome of the
handler's `k`-th invocation (counting from 0) on event `ev`; the
30-second race in `executeHandler` makes a timeout one more possible
error outcome of the oracle. A fresh registration with no options has
`filter := none`, `breaker := none`, and its counter starts at 0. -/
structure HandlerState where
  behavior : Nat → Event → Except JsError Unit
  filter : Option (Event → Bool)
  breaker : Option CircuitBreaker
  calls : Nat

/-- `EventBus.executeHandler(handler, event)`: one invocation of the
handler, advancing its invocation counter. -/
def EventBus.executeHandler (h : HandlerState) (ev : Event) :
    HandlerState × Except JsError Unit :=
  ({ h with calls := h.calls + 1 }, h.behavior h.calls ev)

/-- The guarded invocation inside `EventBus.process`: through the
handler's circuit breaker when one is configured
(`handlerConfig.circuitBreaker.execute(() => executeHandler(...))`),
directly otherwise. While the breaker is open the handler itself is not
invoked (`calls` does not advance) and the call fails with
`circuitOpenError`. -/
def EventBus.runHandler (h : HandlerState) (ev : Event) (now : Nat) :
    HandlerState × Except JsError Unit :=
  match h.breaker with
  | none => EventBus.executeHandler h ev
  | some cb =>
    if cb.state = BreakerState.opened then
      (h, Except.error circuitOpenError)
    else
      let (h', r) := EventBus.executeHandler h ev
      match r with
      | Except.ok _ => ({ h' with breaker := some cb.onSuccess }, Except.ok ())
      | Except.error e =>
        ({ h' with breaker := some (cb.onFailure e now) }, Except.error e)

/-- Result of `EventBus.handleProcessingError`: the mutated event, the
handler's runtime state, the dead-letter queue, the `metrics.retried`
counter, and the outcome of the call itself — `Except.error` when the
call rejects (which the source does not catch anywhere in `process`). -/
structure HpeOut where
  event : Event
  handler : HandlerState
  dlq : DeadLetterQueue
  retriedCount : Nat
  result : Except JsError Unit

/-- `EventBus.handleProcessingError(event, error, handlerConfig)`:
increment `event.attempts`; if still below `maxRetries`, mark the event
`retrying`, bump `metrics.retried`, sleep the backoff delay, and return
the promise of one direct re-invocation of the same handler (so a
failure of that re-invocation rejects this call); otherwise mark the
event `dead_letter` and hand it to `DeadLetterQueue.add` (whose own
exceptions, e.g. from a dead-letter handler, also propagate). -/
def EventBus.handleProcessingError (ev : Event) (err : JsError)
    (h : HandlerState) (dlq : DeadLetterQueue) (retried : Nat) (now : Nat) :
    HpeOut :=
  let ev := { ev with attempts := ev.attempts + 1 }
  if ev.attempts < ev.maxRetries then
    let ev := { ev with status := EventStatus.retrying }
    let (h', r) := EventBus.executeHandler h ev
    { event := ev, handler := h', dlq := dlq
      retriedCount := retried + 1, result := r }
  else
    let ev := { ev with status := EventStatus.dead_letter }
    let ar := dlq.add ev err now
    { event := ev, handler := h, dlq := ar.dlq
      retriedCount := retried, result := ar.result.map (fun _ => ()) }

/-- The handler loop of `EventBus.process` over the gathered handler
list (`[...typeHandlers, ...wildcardHandlers]`, already in priority
order). A handler whose filter rejects the event is skipped; a handler
failure is routed to `handleProcessingError`, and if that call itself
rejects the loop aborts and the error propagates (the remaining
handlers keep their states). -/
def EventBus.processLoop (now : Nat) :
    Event → DeadLetterQueue → Nat → List HandlerState →
    Event × List HandlerState × DeadLetterQueue × Nat × Except JsError Unit
  | ev, dlq, retried, [] => (ev, [], dlq, retried, Except.ok ())
  | ev, dlq, retried, h :: rest =>
    let skip := match h.filter with
      | some f => !(f ev)
      | none => false
    if skip then
      let (ev', hs, dlq', re', res) := EventBus.processLoop now ev dlq retried rest
      (ev', h :: hs, dlq', re', res)
    else
      let (h1, r) := EventBus.runHandler h ev now
      match r with
      | Except.ok _ =>
        let (ev', hs, dlq', re', res) := EventBus.processLoop now ev dlq retried rest
        (ev', h1 :: hs, dlq', re', res)
      | Except.error e =>
        let o := EventBus.handleProcessingError ev e h1 dlq retried now
        match o.result with
        | Except.ok _ =>
          let (ev', hs, dlq', re', res) :=
            EventBus.processLoop now o.event o.dlq o.retriedCount rest
          (ev', o.handler :: hs, dlq', re', res)
        | Except.error e2 =>
          (o.event, o.handler :: rest, o.dlq, o.retriedCount, Except.error e2)

/-- Result of `EventBus.process`. -/
structure ProcOut where
  event : Event
  handlers : List HandlerState
  dlq : DeadLetterQueue
  retriedCount : Nat
  processedCount : Nat
  result : Except JsError Unit

/-- `EventBus.process(event)`: mark the event `processing`, run the
handler loop, and — only when no error escaped the loop — mark the
event `completed` (unconditionally, even if some handler dead-lettered
it) and bump `metrics.processed`. An escaping error leaves the event in
whatever state the failing step set and rejects `process` itself. -/
def EventBus.process (ev : Event) (hs : List HandlerState)
    (dlq : DeadLetterQueue) (retried processedCount now : Nat) : ProcOut :=
  let ev1 := { ev with status := EventStatus.processing }
  let (ev2, hs', dlq', re', res) := EventBus.processLoop now ev1 dlq retried hs
  match res with
  | Except.ok _ =>
    { event := { ev2 with status := EventStatus.completed }
      handlers := hs', dlq := dlq', retriedCount := re'
      processedCount := processedCount + 1, result := Except.ok () }
  | Except.error e =>
    { event := ev2, handlers := hs', dlq := dlq', retriedCount := re'
      processedCount := processedCount, result := Except.error e }

/-- A middleware, modelled by its observable behaviour on an event: a
replacement event, `none` for a falsy return (which `applyMiddlewares`
turns into a thrown `Middleware chain broken` error), or a thrown
error. -/
abbrev Middleware := Event → Except JsError (Option Event)

/-- `EventBus.applyMiddlewares(event)`. -/
def EventBus.applyMiddlewares : List Middleware → Event → Except JsError Event
  | [], ev => Except.ok ev
  | m :: rest, ev =>
    match m ev with
    | Except.error e => Except.error e
    | Except.ok none =>
      Except.error { message := "Middleware chain broken", name := "Error", stack := "" }
    | Except.ok (some ev') => EventBus.applyMiddlewares rest ev'

/-- Result of `EventBus.publish`. -/
structure PubOut where
  event : Event
  store : EventStore
  handlers : List HandlerState
  dlq : DeadLetterQueue
  retriedCount : Nat
  processedCount : Nat
  publishedCount : Nat
  failedCount : Nat
  result : Except JsError Event

/-- `EventBus.publish(event, options)` for an argument that is already
an `Event` instance (the `instanceof` re-wrapping branch is then not
taken): apply the middlewares, append to the event store unless
`options.persist === false`, run `process`, and on success bump
`metrics.published` and return the event; any escaping error bumps
`metrics.failed` and rejects the publish call. -/
def EventBus.publish (ev : Event) (ms : List Middleware) (store : EventStore)
    (hs : List HandlerState) (dlq : DeadLetterQueue)
    (retried processedCount published failed : Nat)
    (persist : Bool) (now : Nat) : PubOut :=
  match EventBus.applyMiddlewares ms ev with
  | Except.error e =>
    { event := ev, store := store, handlers := hs, dlq := dlq
      retriedCount := retried, processedCount := processedCount
      publishedCount := published, failedCount := failed + 1
      result := Except.error e }
  | Except.ok ev' =>
    let store' := if persist then (store.append ev' now).1 else store
    let po := EventBus.process ev' hs dlq retried processedCount now
    match po.result with
    | Except.ok _ =>
      { event := po.event, store := store', handlers := po.handlers
        dlq := po.dlq, retriedCount := po.retriedCount
        processedCount := po.processedCount
        publishedCount := published + 1, failedCount := failed
        result := Except.ok po.event }
    | Except.error e =>
      { event := po.event, store := store', handlers := po.handlers
        dlq := po.dlq, retriedCount := po.retriedCount
        processedCount := po.processedCount
        publishedCount := published, failedCount := failed + 1
        result := Except.error e }

/-- The options object of `EventBus.replay`. -/
structure ReplayOptions where
  aggregateId : Option String := none
  fromSequence : Option Nat := none
  toSequence : Option Nat := none
  eventTypes : Option (List String) := none

/-- The loop of `EventBus.replay`: reconstruct each selected stored
event with `Event.fromJSON` and feed it through `process`, stopping at
(and propagating) the first escaping processing error. Returns the
trace of stored events actually fed to `process`, the final bus state,
and the escaping error if any. -/
def EventBus.replayGo (fresh : Fresh) (now : Nat) :
    List StoredEvent → List HandlerState → DeadLetterQueue → Nat → Nat →
    List StoredEvent × List HandlerState × DeadLetterQueue × Nat × Nat × Option JsError
  | [], hs, dlq, re, pc => ([], hs, dlq, re, pc, none)
  | se :: rest, hs, dlq, re, pc =>
    let po := EventBus.process (Event.fromJSON se.json fresh) hs dlq re pc now
    match po.result with
    | Except.error e =>
      ([se], po.handlers, po.dlq, po.retriedCount, po.processedCount, some e)
    | Except.ok _ =>
      let (tr, hs', dlq', re', pc', errOut) :=
        EventBus.replayGo fresh now rest po.handlers po.dlq po.retriedCount po.processedCount
      (se :: tr, hs', dlq', re', pc', errOut)

/-- Result of `EventBus.replay`. -/
structure ReplayOut where
  trace : List StoredEvent
  handlers : List HandlerState
  dlq : DeadLetterQueue
  retriedCount : Nat
  processedCount : Nat
  result : Except JsError Nat

/-- `EventBus.replay(options)`: select the stored events with
`EventStore.getEvents`, feed each through `process` in order, and
return the count of selected events (or reject with the first escaping
processing error). -/
def EventBus.replay (store : EventStore) (hs : List HandlerState)
    (dlq : DeadLetterQueue) (retried processedCount : Nat)
    (opts : ReplayOptions) (fresh : Fresh) (now : Nat) : ReplayOut :=
  let events := store.getEvents opts.aggregateId
    { fromSequence := opts.fromSequence
      toSequence := opts.toSequence
      eventTypes := opts.eventTypes }
  let (tr, hs', dlq', re', pc', errOut) :=
    EventBus.replayGo fresh now events hs dlq retried processedCount
  { trace := tr, handlers := hs', dlq := dlq', retriedCount := re'
    processedCount := pc'
    result := match errOut with
      | none => Except.ok events.length
      | some e => Except.error e }

/-- A concrete error fixture used in concrete counterexamples and
witnesses. -/
def boomErr : JsError := { message := "boom", name := "Error", stack := "" }

/-- A concrete generator-result fixture. -/
def fresh0 : Fresh :=
  { now := 100, genId := "evt_1", genTraceId := "trace_1", genSpanId := "span_1" }

/-- A second generator-result fixture (a later reconstruction time). -/
def fresh1 : Fresh :=
  { now := 200, genId := "evt_2", genTraceId := "trace_2", genSpanId := "span_2" }

/-- A concrete payload fixture. -/
def payload0 : Payload := { aggregateId := none, body := "p" }

/-- A fresh dead-letter queue with the default bound and no registered
dead-letter handlers. -/
def dlq0 : DeadLetterQueue := { queue := [], maxSize := 1000, handlers := [] }

/-- A freshly registered handler (no filter, no breaker) that throws on
every invocation. -/
def alwaysFailHandler : HandlerState :=
  { behavior := fun _ _ => Except.error boomErr
    filter := none, breaker := none, calls := 0 }

/-- A handler behaviour that throws on its first invocation and
succeeds on every later one. -/
def mixedHandlerB : Nat → Event → Except JsError Unit :=
  fun k _ => if k = 0 then Except.error boomErr else Except.ok ()

/-- A concrete breaker built by the constructor with
`failureThreshold = 2`, `successThreshold = 3`. -/
def cbFix : CircuitBreaker := CircuitBreaker.make (some 2) (some 3) (some 1000)

/-- A dead-letter queue whose handler for type `"t"` throws. -/
def dlqThrowTyped : DeadLetterQueue :=
  { queue := [], maxSize := 1000
    handlers := [("t", fun _ => Except.error boomErr)] }

/-- A concrete event of type `"t"` with default options. -/
def evT : Event := Event.make "t" payload0 {} fresh0

/-- A concrete event constructed with `maxRetries = 5`. -/
def evMR5 : Event := Event.make "t" payload0 { maxRetries := some 5 } fresh0

/-- Claim C1, counterexample. The claim says that for an event with
`maxRetries = m` and an always-failing handler, exactly `m` failing
attempts move the event to `dead_letter` status and produce exactly one
dead-letter entry. At `m = 2`, after `process` runs (two failing
invocations: the original and the single retry), the event is not in
`dead_letter` status and the dead-letter queue has no entry — the retry
re-invocation failure instead escapes `process`. -/
theorem C1_counterexample :
    ¬ ((EventBus.process (Event.make "t" payload0 { maxRetries := some 2 } fresh0)
        [alwaysFailHandler] dlq0 0 0 0).event.status = EventStatus.dead_letter ∧
       (EventBus.process (Event.make "t" payload0 { maxRetries := some 2 } fresh0)
        [alwaysFailHandler] dlq0 0 0 0).dlq.queue.length = 1) := by
  decide

/-- Claim C1, amended. For a fresh event dispatched by `process` to a
single plain handler that fails on every invocation: with
`maxRetries ≥ 2` the event is never dead-lettered — exactly two failing
invocations happen, the retry failure escapes `process`, and the event
is left `retrying` with `attempts = 1` and an empty dead-letter queue;
with `maxRetries = 1` the single failing invocation dead-letters the
event, producing exactly one dead-letter entry recording status
`dead_letter` and attempt count 1, while the in-memory event object
finishes `completed` because `process` overwrites the status after the
handler loop. If instead the handler fails once and its single retry
re-invocation succeeds, the event completes with no dead-letter entry
and one retry counted. -/
theorem C1_amended (ev : Event) (b b2 : Nat → Event → Except JsError Unit)
    (err : JsError) (dlq : DeadLetterQueue) (r0 p0 now : Nat)
    (hb : ∀ k e', b k e' = Except.error err)
    (hb20 : ∀ e', b2 0 e' = Except.error err)
    (hb21 : ∀ e', b2 1 e' = Except.ok ())
    (hatt : ev.attempts = 0)
    (hq : dlq.queue = []) (hh : dlq.handlers = []) (hm : 0 < dlq.maxSize) :
    (2 ≤ ev.maxRetries →
      (EventBus.process ev [{ behavior := b, filter := none, breaker := none, calls := 0 }]
          dlq r0 p0 now).result = Except.error err ∧
      (EventBus.process ev [{ behavior := b, filter := none, breaker := none, calls := 0 }]
          dlq r0 p0 now).event.status = EventStatus.retrying ∧
      (EventBus.process ev [{ behavior := b, filter := none, breaker := none, calls := 0 }]
          dlq r0 p0 now).event.attempts = 1 ∧
      (EventBus.process ev [{ behavior := b, filter := none, breaker := none, calls := 0 }]
          dlq r0 p0 now).dlq.queue = [] ∧
      (EventBus.process ev [{ behavior := b, filter := none, breaker := none, calls := 0 }]
          dlq r0 p0 now).handlers =
        [{ behavior := b, filter := none, breaker := none, calls := 2 }]) ∧
    (ev.maxRetries = 1 →
      (EventBus.process ev [{ behavior := b, filter := none, breaker := none, calls := 0 }]
          dlq r0 p0 now).result = Except.ok () ∧
      (EventBus.process ev [{ behavior := b, filter := none, breaker := none, calls := 0 }]
          dlq r0 p0 now).event.status = EventStatus.completed ∧
      (EventBus.process ev [{ behavior := b, filter := none, breaker := none, calls := 0 }]
          dlq r0 p0 now).dlq.queue =
        [DeadLetterQueue.mkEntry
          { ev with status := EventStatus.dead_letter, attempts := 1 } err now] ∧
      (EventBus.process ev [{ behavior := b, filter := none, breaker := none, calls := 0 }]
          dlq r0 p0 now).handlers =
        [{ behavior := b, filter := none, breaker := none, calls := 1 }]) ∧
    (2 ≤ ev.maxRetries →
      (EventBus.process ev [{ behavior := b2, filter := none, breaker := none, calls := 0 }]
          dlq r0 p0 now).result = Except.ok () ∧
      (EventBus.process ev [{ behavior := b2, filter := none, breaker := none, calls := 0 }]
          dlq r0 p0 now).event.status = EventStatus.completed ∧
      (EventBus.process ev [{ behavior := b2, filter := none, breaker := none, calls := 0 }]
          dlq r0 p0 now).event.attempts = 1 ∧
      (EventBus.process ev [{ behavior := b2, filter := none, breaker := none, calls := 0 }]
          dlq r0 p0 now).dlq.queue = [] ∧
      (EventBus.process ev [{ behavior := b2, filter := none, breaker := none, calls := 0 }]
          dlq r0 p0 now).retriedCount = r0 + 1) := by
  refine ⟨?_, ?_, ?_⟩
  · intro hm2
    have hlt : 1 < ev.maxRetries := by omega
    simp [EventBus.process, EventBus.processLoop, EventBus.runHandler,
      EventBus.executeHandler, EventBus.handleProcessingError, hb, hatt, hlt, hq]
  · intro hm1
    have hlt : ¬ (1 < ev.maxRetries) := by omega
    have hm' : ¬ dlq.maxSize = 0 := by omega
    have hpure : (pure () : Except JsError Unit) = Except.ok () := rfl
    simp [Except.map, hpure, hm', bind, Except.bind, EventBus.process,
      EventBus.processLoop, EventBus.runHandler,
      EventBus.executeHandler, EventBus.handleProcessingError,
      DeadLetterQueue.add, DeadLetterQueue.notifyHandlers, mapGet,
      hb, hatt, hlt, hq, hh, hm, DeadLetterQueue.mkEntry]
  · intro hm2
    have hlt : 1 < ev.maxRetries := by omega
    simp [EventBus.process, EventBus.processLoop, EventBus.runHandler,
      EventBus.executeHandler, EventBus.handleProcessingError, hb20, hb21, hatt, hlt, hq]

/-- Claim C1, witness: the amended theorem evaluated at a concrete
event with `maxRetries = 2`, a concrete always-failing handler and a
concrete fail-then-succeed handler. -/
theorem C1_witness :
    ((EventBus.process (Event.make "t" payload0 { maxRetries := some 2 } fresh0)
        [{ behavior := fun _ _ => Except.error boomErr, filter := none, breaker := none, calls := 0 }]
        dlq0 0 0 0).result = Except.error boomErr ∧
     (EventBus.process (Event.make "t" payload0 { maxRetries := some 2 } fresh0)
        [{ behavior := fun _ _ => Except.error boomErr, filter := none, breaker := none, calls := 0 }]
        dlq0 0 0 0).event.status = EventStatus.retrying ∧
     (EventBus.process (Event.make "t" payload0 { maxRetries := some 2 } fresh0)
        [{ behavior := fun _ _ => Except.error boomErr, filter := none, breaker := none, calls := 0 }]
        dlq0 0 0 0).event.attempts = 1 ∧
     (EventBus.process (Event.make "t" payload0 { maxRetries := some 2 } fresh0)
        [{ behavior := fun _ _ => Except.error boomErr, filter := none, breaker := none, calls := 0 }]
        dlq0 0 0 0).dlq.queue = [] ∧
     (EventBus.process (Event.make "t" payload0 { maxRetries := some 2 } fresh0)
        [{ behavior := fun _ _ => Except.error boomErr, filter := none, breaker := none, calls := 0 }]
        dlq0 0 0 0).handlers =
       [{ behavior := fun _ _ => Except.error boomErr, filter := none, breaker := none, calls := 2 }]) ∧
    ((EventBus.process (Event.make "t" payload0 { maxRetries := some 2 } fresh0)
        [{ behavior := mixedHandlerB, filter := none, breaker := none, calls := 0 }]
        dlq0 0 0 0).result = Except.ok () ∧
     (EventBus.process (Event.make "t" payload0 { maxRetries := some 2 } fresh0)
        [{ behavior := mixedHandlerB, filter := none, breaker := none, calls := 0 }]
        dlq0 0 0 0).event.status = EventStatus.completed ∧
     (EventBus.process (Event.make "t" payload0 { maxRetries := some 2 } fresh0)
        [{ behavior := mixedHandlerB, filter := none, breaker := none, calls := 0 }]
        dlq0 0 0 0).retriedCount = 0 + 1) := by
  have h := C1_amended (Event.make "t" payload0 { maxRetries := some 2 } fresh0)
    (fun _ _ => Except.error boomErr) mixedHandlerB boomErr dlq0 0 0 0
    (fun _ _ => rfl) (fun _ => rfl) (fun _ => rfl) rfl rfl rfl (by decide)
  have hmr : 2 ≤ (Event.make "t" payload0 { maxRetries := some 2 } fresh0).maxRetries := by
    decide
  refine ⟨h.1 hmr, ?_⟩
  have h3 := h.2.2 hmr
  exact ⟨h3.1, h3.2.1, h3.2.2.2.2⟩

/-- Claim C2, counterexample. The claim says handler failures never
cause the enclosing `publish` call to reject. With a single handler
that fails on every invocation and the constructor-default
`maxRetries = 3`, `publish` rejects with the handler error: the retry
re-invocation failure returned by `handleProcessingError` is never
caught. -/
theorem C2_counterexample :
    (EventBus.publish (Event.make "t" payload0 {} fresh0) [] { events := [] }
      [alwaysFailHandler] dlq0 0 0 0 0 true 0).result = Except.error boomErr := by
  rfl

/-- Claim C2, amended. After the backoff the same handler is re-invoked
once; if that re-invocation fails the error is not evaluated against
`maxRetries` again — it propagates out of `handleProcessingError` and
`process`, and the enclosing `publish` rejects with it (bumping
`metrics.failed`, with nothing dead-lettered). Only a failure caught
when the incremented attempt count has reached `maxRetries` is routed
to the dead-letter queue without rejecting `publish` (here shown for
`maxRetries = 1`: publish resolves, one dead-letter entry,
`metrics.published` bumped). -/
theorem C2_amended (ev : Event) (b : Nat → Event → Except JsError Unit)
    (err : JsError) (ms0 : List Middleware) (store : EventStore)
    (dlq : DeadLetterQueue) (r0 p0 pub0 f0 now : Nat) (persist : Bool)
    (hb : ∀ k e', b k e' = Except.error err)
    (hatt : ev.attempts = 0)
    (hq : dlq.queue = []) (hh : dlq.handlers = []) (hm : 0 < dlq.maxSize)
    (hms : ms0 = []) :
    (2 ≤ ev.maxRetries →
      (EventBus.publish ev ms0 store [{ behavior := b, filter := none, breaker := none, calls := 0 }]
          dlq r0 p0 pub0 f0 persist now).result = Except.error err ∧
      (EventBus.publish ev ms0 store [{ behavior := b, filter := none, breaker := none, calls := 0 }]
          dlq r0 p0 pub0 f0 persist now).failedCount = f0 + 1 ∧
      (EventBus.publish ev ms0 store [{ behavior := b, filter := none, breaker := none, calls := 0 }]
          dlq r0 p0 pub0 f0 persist now).dlq.queue = []) ∧
    (ev.maxRetries = 1 →
      (EventBus.publish ev ms0 store [{ behavior := b, filter := none, breaker := none, calls := 0 }]
          dlq r0 p0 pub0 f0 persist now).result =
        Except.ok (EventBus.publish ev ms0 store
          [{ behavior := b, filter := none, breaker := none, calls := 0 }]
          dlq r0 p0 pub0 f0 persist now).event ∧
      (EventBus.publish ev ms0 store [{ behavior := b, filter := none, breaker := none, calls := 0 }]
          dlq r0 p0 pub0 f0 persist now).event.status = EventStatus.completed ∧
      (EventBus.publish ev ms0 store [{ behavior := b, filter := none, breaker := none, calls := 0 }]
          dlq r0 p0 pub0 f0 persist now).dlq.queue =
        [DeadLetterQueue.mkEntry
          { ev with status := EventStatus.dead_letter, attempts := 1 } err now] ∧
      (EventBus.publish ev ms0 store [{ behavior := b, filter := none, breaker := none, calls := 0 }]
          dlq r0 p0 pub0 f0 persist now).publishedCount = pub0 + 1) := by
  subst hms
  constructor
  · intro hm2
    have hlt : 1 < ev.maxRetries := by omega
    simp [EventBus.publish, EventBus.applyMiddlewares, EventBus.process,
      EventBus.processLoop, EventBus.runHandler,
      EventBus.executeHandler, EventBus.handleProcessingError, hb, hatt, hlt, hq]
  · intro hm1
    have hlt : ¬ (1 < ev.maxRetries) := by omega
    have hm' : ¬ dlq.maxSize = 0 := by omega
    have hpure : (pure () : Except JsError Unit) = Except.ok () := rfl
    simp [Except.map, hpure, hm', bind, Except.bind, EventBus.publish,
      EventBus.applyMiddlewares, EventBus.process,
      EventBus.processLoop, EventBus.runHandler,
      EventBus.executeHandler, EventBus.handleProcessingError,
      DeadLetterQueue.add, DeadLetterQueue.notifyHandlers, mapGet,
      hb, hatt, hlt, hq, hh, hm, DeadLetterQueue.mkEntry]

/-- Claim C2, witness: the amended theorem evaluated at concrete events
with `maxRetries = 2` (publish rejects) and `maxRetries = 1` (publish
resolves after dead-lettering). -/
theorem C2_witness :
    ((EventBus.publish (Event.make "t" payload0 { maxRetries := some 2 } fresh0) []
        { events := [] }
        [{ behavior := fun _ _ => Except.error boomErr, filter := none, breaker := none, calls := 0 }]
        dlq0 0 0 0 0 true 0).result = Except.error boomErr ∧
     (EventBus.publish (Event.make "t" payload0 { maxRetries := some 2 } fresh0) []
        { events := [] }
        [{ behavior := fun _ _ => Except.error boomErr, filter := none, breaker := none, calls := 0 }]
        dlq0 0 0 0 0 true 0).failedCount = 0 + 1) ∧
    ((EventBus.publish (Event.make "t" payload0 { maxRetries := some 1 } fresh0) []
        { events := [] }
        [{ behavior := fun _ _ => Except.error boomErr, filter := none, breaker := none, calls := 0 }]
        dlq0 0 0 0 0 true 0).result =
       Except.ok (EventBus.publish (Event.make "t" payload0 { maxRetries := some 1 } fresh0) []
        { events := [] }
        [{ behavior := fun _ _ => Except.error boomErr, filter := none, breaker := none, calls := 0 }]
        dlq0 0 0 0 0 true 0).event ∧
     (EventBus.publish (Event.make "t" payload0 { maxRetries := some 1 } fresh0) []
        { events := [] }
        [{ behavior := fun _ _ => Except.error boomErr, filter := none, breaker := none, calls := 0 }]
        dlq0 0 0 0 0 true 0).publishedCount = 0 + 1) := by
  constructor
  · have h := C2_amended (Event.make "t" payload0 { maxRetries := some 2 } fresh0)
      (fun _ _ => Except.error boomErr) boomErr [] { events := [] } dlq0 0 0 0 0 0 true
      (fun _ _ => rfl) rfl rfl rfl (by decide) rfl
    have hmr : 2 ≤ (Event.make "t" payload0 { maxRetries := some 2 } fresh0).maxRetries := by
      decide
    exact ⟨(h.1 hmr).1, (h.1 hmr).2.1⟩
  · have h := C2_amended (Event.make "t" payload0 { maxRetries := some 1 } fresh0)
      (fun _ _ => Except.error boomErr) boomErr [] { events := [] } dlq0 0 0 0 0 0 true
      (fun _ _ => rfl) rfl rfl rfl (by decide) rfl
    have hmr : (Event.make "t" payload0 { maxRetries := some 1 } fresh0).maxRetries = 1 := by
      decide
    exact ⟨(h.2 hmr).1, (h.2 hmr).2.2.2⟩

/-- Claim C9: the post-backoff retry re-invocation inside
`handleProcessingError` calls the handler directly
(`executeHandler`), not through its circuit breaker, so whatever the
retry outcome (and likewise on the dead-letter branch) the handler's
attached breaker — its state, failureCount and successCount — is left
exactly as it was; the handler function itself is also unchanged. -/
theorem C9_retry_bypasses_breaker (ev : Event) (err : JsError) (h : HandlerState)
    (dlq : DeadLetterQueue) (retried now : Nat) :
    (EventBus.handleProcessingError ev err h dlq retried now).handler.breaker = h.breaker ∧
    (EventBus.handleProcessingError ev err h dlq retried now).handler.behavior = h.behavior := by
  by_cases hc : ev.attempts + 1 < ev.maxRetries
  all_goals
    simp [EventBus.handleProcessingError, EventBus.executeHandler, hc]

/-- Helper: once a breaker is open, failing `execute` calls leave it
unchanged (they fail fast without invoking the wrapped function). -/
theorem failIter_of_opened (err : JsError) (now : Nat) :
    ∀ (k : Nat) (cb : CircuitBreaker), cb.state = BreakerState.opened →
      failIter err now k cb = cb := by
  intro k
  induction k with
  | zero => intro cb _; rfl
  | succ n ih =>
    intro cb hcb
    have hstep : (cb.execute (Except.error err : Except JsError Unit) now).breaker = cb := by
      simp [CircuitBreaker.execute, hcb]
    rw [failIter, hstep]
    exact ih cb hcb

/-- Helper: from the closed state, enough consecutive failing `execute`
calls to reach `failureThreshold` drive the breaker to the open
state. -/
theorem failIter_opens (err : JsError) (now : Nat) :
    ∀ (k : Nat) (cb : CircuitBreaker), cb.state = BreakerState.closed →
      cb.failureThreshold ≤ cb.failureCount + k → 1 ≤ k →
      (failIter err now k cb).state = BreakerState.opened := by
  intro k
  induction k with
  | zero => intro cb _ _ hk; omega
  | succ n ih =>
    intro cb hcb hth _
    have hne : ¬ cb.state = BreakerState.opened := by rw [hcb]; intro h; cases h
    have hne2 : ¬ cb.state = BreakerState.halfOpen := by rw [hcb]; intro h; cases h
    by_cases hfc : cb.failureThreshold ≤ cb.failureCount + 1
    · have hstep : (cb.execute (Except.error err : Except JsError Unit) now).breaker.state =
          BreakerState.opened := by
        simp [CircuitBreaker.execute, CircuitBreaker.onFailure, CircuitBreaker.openCircuit,
          hne, hne2, hfc]
      rw [failIter, failIter_of_opened err now n _ hstep]
      exact hstep
    · have hstep : (cb.execute (Except.error err : Except JsError Unit) now).breaker =
          { cb with
              failureCount := cb.failureCount + 1
              lastFailure := some (err, now) } := by
        simp [CircuitBreaker.execute, CircuitBreaker.onFailure, hne, hne2, hfc]
      rw [failIter, hstep]
      exact ih _ hcb (by simpa using by omega) (by omega)

/-- Claim C3: for a handler guarded by a circuit breaker in the closed
state, `k` consecutive failing invocations with
`k ≥ failureThreshold > 0` transition the breaker to the open state,
and every subsequent `execute` call while open returns immediately with
the circuit-open error, reporting the wrapped function as not invoked
and leaving the breaker unchanged. -/
theorem C3_breaker_opens_then_fails_fast (cb : CircuitBreaker) (k : Nat)
    (err : JsError) (now : Nat)
    (hcl : cb.state = BreakerState.closed)
    (hth : 0 < cb.failureThreshold)
    (hk : cb.failureThreshold ≤ k) :
    (failIter err now k cb).state = BreakerState.opened ∧
    ∀ (fn : Except JsError Unit) (now2 : Nat),
      (failIter err now k cb).execute fn now2 =
        { invoked := false, result := Except.error circuitOpenError,
          breaker := failIter err now k cb } := by
  have h1 : (failIter err now k cb).state = BreakerState.opened :=
    failIter_opens err now k cb hcl (by omega) (by omega)
  refine ⟨h1, ?_⟩
  intro fn now2
  simp [CircuitBreaker.execute, h1]

/-- Claim C3, witness: a constructor-built breaker with
`failureThreshold = 2` after two consecutive failures is open, and a
subsequent `execute` with a succeeding function fails fast without
invoking it. -/
theorem C3_witness :
    (failIter boomErr 0 2 cbFix).state = BreakerState.opened ∧
    (failIter boomErr 0 2 cbFix).execute (Except.ok () : Except JsError Unit) 5 =
      { invoked := false, result := Except.error circuitOpenError,
        breaker := failIter boomErr 0 2 cbFix } := by
  have h := C3_breaker_opens_then_fails_fast cbFix 2 boomErr 0 rfl (by decide) (by decide)
  exact ⟨h.1, h.2 (Except.ok ()) 5⟩

/-- Helper: success keeps a closed breaker closed. -/
theorem succIter_of_closed (now : Nat) :
    ∀ (k : Nat) (cb : CircuitBreaker), cb.state = BreakerState.closed →
      (succIter now k cb).state = BreakerState.closed := by
  intro k
  induction k with
  | zero => intro cb hcb; exact hcb
  | succ n ih =>
    intro cb hcb
    have hne : ¬ cb.state = BreakerState.opened := by rw [hcb]; intro h; cases h
    have hne2 : ¬ cb.state = BreakerState.halfOpen := by rw [hcb]; intro h; cases h
    have hstep : (cb.execute (Except.ok () : Except JsError Unit) now).breaker =
        { cb with failureCount := 0 } := by
      simp [CircuitBreaker.execute, CircuitBreaker.onSuccess, hne, hne2]
    rw [succIter, hstep]
    exact ih _ hcb

/-- Helper: from the half-open state, enough consecutive succeeding
`execute` calls to reach `successThreshold` close the breaker. -/
theorem succIter_closes (now : Nat) :
    ∀ (k : Nat) (cb : CircuitBreaker), cb.state = BreakerState.halfOpen →
      cb.successThreshold ≤ cb.successCount + k → 1 ≤ k →
      (succIter now k cb).state = BreakerState.closed := by
  intro k
  induction k with
  | zero => intro cb _ _ hk; omega
  | succ n ih =>
    intro cb hcb hth _
    have hne : ¬ cb.state = BreakerState.opened := by rw [hcb]; intro h; cases h
    by_cases hsc : cb.successThreshold ≤ cb.successCount + 1
    · have hstep : (cb.execute (Except.ok () : Except JsError Unit) now).breaker.state =
          BreakerState.closed := by
        simp [CircuitBreaker.execute, CircuitBreaker.onSuccess, CircuitBreaker.close,
          hne, hcb, hsc]
      rw [succIter, succIter_of_closed now n _ hstep]
    · have hstep : (cb.execute (Except.ok () : Except JsError Unit) now).breaker =
          { cb with
              failureCount := 0
              successCount := cb.successCount + 1 } := by
        simp [CircuitBreaker.execute, CircuitBreaker.onSuccess, hne, hcb, hsc]
      rw [succIter, hstep]
      exact ih _ hcb (by simpa using by omega) (by omega)

/-- Claim C4: when the open state's timeout elapses (the reset timer
fires `halfOpen`), the breaker becomes half-open with both
`failureCount` and `successCount` reset to 0; `successThreshold`
consecutive successes from there transition it to closed; and any
single failing `execute` while half-open reopens it. -/
theorem C4_halfopen_cycle (cb : CircuitBreaker) (now : Nat)
    (_hop : cb.state = BreakerState.opened)
    (hst : 0 < cb.successThreshold) :
    cb.halfOpen.state = BreakerState.halfOpen ∧
    cb.halfOpen.failureCount = 0 ∧
    cb.halfOpen.successCount = 0 ∧
    (succIter now cb.successThreshold cb.halfOpen).state = BreakerState.closed ∧
    ∀ (cb2 : CircuitBreaker) (err : JsError) (now2 : Nat),
      cb2.state = BreakerState.halfOpen →
      (cb2.execute (Except.error err : Except JsError Unit) now2).breaker.state =
        BreakerState.opened := by
  refine ⟨rfl, rfl, rfl, ?_, ?_⟩
  · exact succIter_closes now cb.successThreshold cb.halfOpen rfl
      (by simp [CircuitBreaker.halfOpen]) (by omega)
  · intro cb2 err now2 hcb2
    have hne : ¬ cb2.state = BreakerState.opened := by rw [hcb2]; intro h; cases h
    simp [CircuitBreaker.execute, CircuitBreaker.onFailure, CircuitBreaker.openCircuit,
      hne, hcb2]

/-- Claim C4, witness: the opened fixture breaker, after its timeout
fires, is half-open with zeroed counters; three successes
(its `successThreshold`) close it; one failure from half-open reopens
it. -/
theorem C4_witness :
    (cbFix.openCircuit.halfOpen.state = BreakerState.halfOpen ∧
     cbFix.openCircuit.halfOpen.failureCount = 0 ∧
     cbFix.openCircuit.halfOpen.successCount = 0) ∧
    (succIter 0 cbFix.openCircuit.successThreshold cbFix.openCircuit.halfOpen).state =
      BreakerState.closed ∧
    (cbFix.openCircuit.halfOpen.execute (Except.error boomErr : Except JsError Unit)
      7).breaker.state = BreakerState.opened := by
  have h := C4_halfopen_cycle cbFix.openCircuit 0 rfl (by decide)
  exact ⟨⟨h.1, h.2.1, h.2.2.1⟩, h.2.2.2.1, h.2.2.2.2 cbFix.openCircuit.halfOpen boomErr 7 rfl⟩

/-- Claim C5, counterexample. The claim says an exception thrown by a
dead-letter handler does not propagate to the caller of `add`. With a
registered handler for type `"t"` that throws (and a succeeding
wildcard handler), `add` returns the thrown error: `notifyHandlers`
wraps neither call in a catch, so the exception propagates. -/
theorem C5_counterexample :
    (({ queue := [], maxSize := 1000,
        handlers := [("t", fun _ => Except.error boomErr),
                     ("*", fun _ => Except.ok ())] } : DeadLetterQueue).add
       (Event.make "t" payload0 {} fresh0) boomErr 0).result = Except.error boomErr := by
  rfl

/-- Claim C5, amended. `DeadLetterQueue.add` inserts the entry (and
evicts the oldest when the bound is exceeded) before the notification
runs, so the insertion survives in every case; but the handler calls
are not best-effort: an exception from the typed handler propagates to
the caller of `add` (whatever the wildcard handler is, which is then
never reached), and if the typed handler succeeds an exception from the
wildcard handler propagates likewise. -/
theorem C5_amended (q : DeadLetterQueue) (ev : Event) (err : JsError) (now : Nat)
    (th : DeadLetter → Except JsError Unit)
    (hmax : 0 < q.maxSize)
    (hth : mapGet q.handlers ev.type = some th) :
    (q.add ev err now).dlq.queue.getLast? = some (DeadLetterQueue.mkEntry ev err now) ∧
    (∀ m : JsError, th (DeadLetterQueue.mkEntry ev err now) = Except.error m →
      (q.add ev err now).result = Except.error m) ∧
    (∀ (wh : DeadLetter → Except JsError Unit) (m : JsError),
      th (DeadLetterQueue.mkEntry ev err now) = Except.ok () →
      mapGet q.handlers "*" = some wh →
      wh (DeadLetterQueue.mkEntry ev err now) = Except.error m →
      (q.add ev err now).result = Except.error m) := by
  refine ⟨?_, ?_, ?_⟩
  · by_cases hev : q.maxSize < (q.queue ++ [DeadLetterQueue.mkEntry ev err now]).length
    · have hq : q.queue ≠ [] := by
        intro h
        rw [h] at hev
        simp at hev
        omega
      obtain ⟨x, xs, hx⟩ := List.exists_cons_of_ne_nil hq
      have hev2 : q.maxSize < xs.length + 1 + 1 := by
        rw [hx] at hev
        simpa using hev
      simp [DeadLetterQueue.add, hx, hev2, List.getLast?_concat]
    · have hev2 : ¬ q.maxSize < q.queue.length + 1 := by simpa using hev
      simp [DeadLetterQueue.add, hev2, List.getLast?_concat]
  · intro m hthm
    simp [DeadLetterQueue.mkEntry, Event.toJSON] at hthm
    simp [DeadLetterQueue.add, DeadLetterQueue.notifyHandlers, Event.toJSON,
      DeadLetterQueue.mkEntry, hth, hthm, bind, Except.bind, Except.map]
  · intro wh m hok hwh hwhm
    simp [DeadLetterQueue.mkEntry, Event.toJSON] at hok hwhm
    simp [DeadLetterQueue.add, DeadLetterQueue.notifyHandlers, Event.toJSON,
      DeadLetterQueue.mkEntry, hth, hok, hwh, hwhm, bind, Except.bind, Except.map]

/-- Claim C5, witness: on the fixture queue whose typed handler throws,
`add` keeps the inserted entry at the tail and returns the handler's
error to its caller. -/
theorem C5_witness :
    (dlqThrowTyped.add evT boomErr 0).dlq.queue.getLast? =
      some (DeadLetterQueue.mkEntry evT boomErr 0) ∧
    (dlqThrowTyped.add evT boomErr 0).result = Except.error boomErr := by
  have h := C5_amended dlqThrowTyped evT boomErr 0
    (fun _ => Except.error boomErr) (by decide) rfl
  exact ⟨h.1, h.2.1 boomErr rfl⟩

/-- Claim C6, counterexample. The claim says
`Event.fromJSON(e.toJSON())` round-trips all fields, including
`maxRetries`. For an event constructed with `maxRetries = 5`, the
round-trip yields `maxRetries = 3`: `toJSON` does not serialize
`maxRetries`, so reconstruction takes the constructor default. -/
theorem C6_counterexample :
    (Event.fromJSON (Event.make "t" payload0 { maxRetries := some 5 } fresh0).toJSON
        fresh1).maxRetries ≠
      (Event.make "t" payload0 { maxRetries := some 5 } fresh0).maxRetries := by
  decide

/-- Claim C6, amended. For an event whose string metadata fields are
non-degenerate for JavaScript truthiness (nonempty strings, nonzero
version), `Event.fromJSON(e.toJSON())` reproduces `id`, `type`,
`payload`, `version`, `correlationId`, `causationId`, `source`,
`userId`, `traceId`, and exactly the same `status` and `attempts` — but
`metadata.timestamp` and `metadata.spanId` are freshly regenerated by
the constructor, and `maxRetries`/`retryDelay` reset to the defaults 3
and 1000 because `toJSON` omits them. -/
theorem C6_amended (e : Event) (fresh : Fresh)
    (hid : e.id ≠ "")
    (hver : e.metadata.version ≠ 0)
    (hcorr : e.metadata.correlationId ≠ "")
    (hsrc : e.metadata.source ≠ "")
    (htr : e.metadata.traceId ≠ "")
    (hcau : e.metadata.causationId ≠ some "")
    (huid : e.metadata.userId ≠ some "") :
    Event.fromJSON e.toJSON fresh =
      { e with
        metadata := { e.metadata with
          timestamp := fresh.now
          spanId := fresh.genSpanId }
        maxRetries := 3
        retryDelay := 1000 } := by
  obtain ⟨id, ty, pl, md, st, att, mr, rd⟩ := e
  obtain ⟨ts, ver, corr, cau, src, uid, tr, sp⟩ := md
  simp only [Event.fromJSON, Event.make, Event.toJSON, jsOrStr, jsOrNat, jsOrNull] at *
  cases cau with
  | none =>
    cases uid with
    | none => simp [hid, hver, hcorr, hsrc, htr]
    | some u =>
      have hu : u ≠ "" := by intro h; exact huid (by rw [h])
      simp [hid, hver, hcorr, hsrc, htr, hu]
  | some c =>
    have hc : c ≠ "" := by intro h; exact hcau (by rw [h])
    cases uid with
    | none => simp [hid, hver, hcorr, hsrc, htr, hc]
    | some u =>
      have hu : u ≠ "" := by intro h; exact huid (by rw [h])
      simp [hid, hver, hcorr, hsrc, htr, hc, hu]

/-- Claim C6, witness: the amended round-trip equation evaluated at the
concrete `maxRetries = 5` fixture event and a later reconstruction
time. -/
theorem C6_witness :
    Event.fromJSON evMR5.toJSON fresh1 =
      { evMR5 with
        metadata := { evMR5.metadata with
          timestamp := fresh1.now
          spanId := fresh1.genSpanId }
        maxRetries := 3
        retryDelay := 1000 } := by
  exact C6_amended evMR5 fresh1 (by decide) (by decide) (by decide) (by decide)
    (by decide) (by decide) (by decide)

/-- Claim C7: for a saga with steps `[S1, S2, S3]` run on an initial
context where `S1` succeeds and `S2` fails, the run rejects with the
original `S2` error, the saga ends in the failed state, the
compensation trace is exactly `[l1]` — `S1`'s compensation runs and
`S3`'s (never pushed, since `S3` never executed) does not — and the
failure is recorded at step index 1. -/
theorem C7_saga_compensation (nm l1 l3 : String) (c2 : Option String)
    (f1 f2 f3 : SagaCtx → Except JsError SagaCtx) (init r1 : SagaCtx) (e : JsError)
    (hf1 : f1 init = Except.ok r1)
    (hf2 : f2 (mergeCtx init r1) = Except.error e) :
    (((((Saga.make nm none).addStep f1 (some l1)).addStep f2 c2).addStep f3
        (some l3)).run init).result = Except.error e ∧
    (((((Saga.make nm none).addStep f1 (some l1)).addStep f2 c2).addStep f3
        (some l3)).run init).saga.state = SagaState.failed ∧
    (((((Saga.make nm none).addStep f1 (some l1)).addStep f2 c2).addStep f3
        (some l3)).run init).compTrace = [l1] ∧
    (((((Saga.make nm none).addStep f1 (some l1)).addStep f2 c2).addStep f3
        (some l3)).run init).saga.currentStep = 1 := by
  simp [Saga.run, Saga.runSteps, Saga.make, Saga.addStep, Saga.compensate, hf1, hf2]

/-- Claim C7, witness: a concrete three-step saga whose second step
throws. -/
theorem C7_witness :
    (((((Saga.make "s" none).addStep (fun _ => Except.ok [("a", 1)]) (some "c1")).addStep
        (fun _ => Except.error boomErr) (some "c2")).addStep
        (fun _ => Except.ok [("b", 2)]) (some "c3")).run [("x", 9)]).result =
      Except.error boomErr ∧
    (((((Saga.make "s" none).addStep (fun _ => Except.ok [("a", 1)]) (some "c1")).addStep
        (fun _ => Except.error boomErr) (some "c2")).addStep
        (fun _ => Except.ok [("b", 2)]) (some "c3")).run [("x", 9)]).saga.state =
      SagaState.failed ∧
    (((((Saga.make "s" none).addStep (fun _ => Except.ok [("a", 1)]) (some "c1")).addStep
        (fun _ => Except.error boomErr) (some "c2")).addStep
        (fun _ => Except.ok [("b", 2)]) (some "c3")).run [("x", 9)]).compTrace = ["c1"] := by
  have h := C7_saga_compensation "s" "c1" "c3" (some "c2")
    (fun _ => Except.ok [("a", 1)]) (fun _ => Except.error boomErr)
    (fun _ => Except.ok [("b", 2)]) [("x", 9)] [("a", 1)] boomErr rfl rfl
  exact ⟨h.1, h.2.1, h.2.2.1⟩

/-- Claim C10: `Saga.run` never resets the compensation stack. For a
two-step saga whose first step succeeds and second step fails, the
first run leaves `compensations = [some l1]` (and ran that
compensation once); running the same saga object again on the same
initial context pushes a second copy, so the second run's compensation
phase executes the first run's accumulated compensation as well —
trace `[l1, l1]`. -/
theorem C10_compensations_persist (nm l1 : String) (c2 : Option String)
    (f1 f2 : SagaCtx → Except JsError SagaCtx) (init r1 : SagaCtx) (e : JsError)
    (hf1 : f1 init = Except.ok r1)
    (hf2 : f2 (mergeCtx init r1) = Except.error e) :
    ((((Saga.make nm none).addStep f1 (some l1)).addStep f2 c2).run init).saga.compensations
        = [some l1] ∧
    ((((Saga.make nm none).addStep f1 (some l1)).addStep f2 c2).run init).compTrace = [l1] ∧
    (((((Saga.make nm none).addStep f1 (some l1)).addStep f2 c2).run init).saga.run
        init).saga.compensations = [some l1, some l1] ∧
    (((((Saga.make nm none).addStep f1 (some l1)).addStep f2 c2).run init).saga.run
        init).compTrace = [l1, l1] := by
  simp [Saga.run, Saga.runSteps, Saga.make, Saga.addStep, Saga.compensate, hf1, hf2]

/-- Claim C10, witness: a concrete two-step saga run twice; the second
run compensates twice with the same label. -/
theorem C10_witness :
    (((((Saga.make "s" none).addStep (fun _ => Except.ok [("a", 1)]) (some "c1")).addStep
        (fun _ => Except.error boomErr) none).run []).saga.run []).compTrace = ["c1", "c1"] := by
  have h := C10_compensations_persist "s" "c1" none
    (fun _ => Except.ok [("a", 1)]) (fun _ => Except.error boomErr) [] [("a", 1)] boomErr
    rfl rfl
  exact h.2.2.2

/-- Helper: with no registered handlers, `replayGo` processes every
selected stored event in order, succeeds, and only advances the
processed-events metric. -/
theorem replayGo_no_handlers (fresh : Fresh) (now : Nat) :
    ∀ (es : List StoredEvent) (dlq : DeadLetterQueue) (re pc : Nat),
      EventBus.replayGo fresh now es [] dlq re pc =
        (es, [], dlq, re, pc + es.length, none) := by
  intro es
  induction es with
  | nil => intro dlq re pc; simp [EventBus.replayGo]
  | cons se rest ih =>
    intro dlq re pc
    simp [EventBus.replayGo, EventBus.process, EventBus.processLoop, ih]
    omega

/-- Claim C8: `replay({aggregateId, fromSequence, toSequence})` on a
bus with no registered handlers feeds to `process` exactly the stored
events of that aggregate whose `sequence` lies in the inclusive range,
in original append order, and resolves with their count; and `replay`
with no sequence bounds resolves with the same count as
`getEvents(aggregateId)` called without options. -/
theorem C8_replay_range (store : EventStore) (a : String) (lo hi : Nat)
    (dlq : DeadLetterQueue) (r0 p0 : Nat) (fresh : Fresh) (now : Nat) :
    (EventBus.replay store [] dlq r0 p0
        { aggregateId := some a, fromSequence := some lo, toSequence := some hi }
        fresh now).trace =
      store.events.filter (fun se =>
        se.json.payload.aggregateId == some a && decide (lo ≤ se.sequence) &&
          decide (se.sequence ≤ hi)) ∧
    (EventBus.replay store [] dlq r0 p0
        { aggregateId := some a, fromSequence := some lo, toSequence := some hi }
        fresh now).result =
      Except.ok (EventBus.replay store [] dlq r0 p0
        { aggregateId := some a, fromSequence := some lo, toSequence := some hi }
        fresh now).trace.length ∧
    (EventBus.replay store [] dlq r0 p0 { aggregateId := some a } fresh now).result =
      Except.ok (store.getEvents (some a) {}).length := by
  have hfilter : store.getEvents (some a)
      { fromSequence := some lo, toSequence := some hi, eventTypes := none } =
      store.events.filter (fun se =>
        se.json.payload.aggregateId == some a && decide (lo ≤ se.sequence) &&
          decide (se.sequence ≤ hi)) := by
    simp [EventStore.getEvents, List.filter_filter]
    apply List.filter_congr
    intro x _
    cases hx : x.json.payload.aggregateId == some a <;> simp [hx, Bool.and_comm]
  refine ⟨?_, ?_, ?_⟩
  · simp [EventBus.replay, replayGo_no_handlers, hfilter]
  · simp [EventBus.replay, replayGo_no_handlers]
  · simp [EventBus.replay, replayGo_no_handlers, EventStore.getEvents]
